import Mathlib

/-!
Shallow embedding of `crates/blockifier/src/blockifier/stateful_validator.rs`
from `dojoengine/blockifier`.

The file under verification is the Stateful Validator orchestrator.  Its
collaborators (the transaction executor's `execute`, the per-transaction
`perform_pre_validation_stage` and `validate_tx` behaviours, the state
overlay's nonce accessors, `PostValidationReport::verify`, and
`TransactionReceipt::from_account_tx`) live outside the provided source slice,
so they are modelled as oracle functions gathered in an `Env` structure and a
`CachedState` record, each documented as `Modelled from the spec`.

Every operation of the orchestrator is translated to a function returning a
`RunResult`: the outcome (`ok` / `err` / a `panicked` branch standing for the
Rust `expect` on the optional block-state slot), the validator after the call,
and an instrumentation trace of which collaborator stages were invoked with
which arguments.  The trace is what lets theorems talk about "stage X was not
invoked".
-/

namespace Blockifier

/-- Contract addresses, modelled as natural numbers. -/
abbrev ContractAddress := Nat

/-- Per-account nonce counter.  In the source it is a field element
(`Nonce(Felt)`); within the counter range relevant here it behaves as a
natural number, compared and incremented as such. -/
abbrev Nonce := Nat

/-- Transaction hashes, modelled as opaque natural numbers. -/
abbrev TransactionHash := Nat

/-- Opaque payload of an error coming from the state layer
(`crate::state::errors::StateError`, external to the source slice). -/
structure StateError where
  code : Nat
  deriving Repr, DecidableEq

/-- Opaque payload of `TransactionExecutionError` (external to the slice). -/
structure TransactionExecutionError where
  code : Nat
  deriving Repr, DecidableEq

/-- Opaque payload of `TransactionExecutorError` (external to the slice). -/
structure TransactionExecutorError where
  code : Nat
  deriving Repr, DecidableEq

/-- Opaque payload of `TransactionPreValidationError` (external to the slice). -/
structure TransactionPreValidationError where
  code : Nat
  deriving Repr, DecidableEq

/-- The error enum of `stateful_validator.rs` (lines 32-42): four variants,
each a transparent `#[from]` wrapping of a collaborator's own error type. -/
inductive StatefulValidatorError where
  | StateError (e : StateError)
  | TransactionExecutionError (e : TransactionExecutionError)
  | TransactionExecutorError (e : TransactionExecutorError)
  | TransactionPreValidationError (e : TransactionPreValidationError)
  deriving Repr, DecidableEq

/-- Opaque call-trace value (`CallInfo`). -/
abbrev CallInfo := Nat

/-- Opaque summary of touched state keys (`StateChanges`). -/
abbrev StateChanges := Nat

/-- Opaque VM resource accounting (`ExecutionResources`). -/
abbrev ExecutionResources := Nat

/-- Opaque transaction receipt value (`TransactionReceipt`). -/
abbrev TransactionReceipt := Nat

/-- The fields of one account transaction that the orchestrator and its
oracles consult: sender address, nonce, and an opaque payload distinguishing
otherwise-identical transactions. -/
structure TxFields where
  sender_address : ContractAddress
  nonce : Nonce
  payload : Nat
  deriving Repr, DecidableEq

/-- `AccountTransaction`: the orchestrator only distinguishes the
`DeployAccount` variant from the rest (`Invoke`, `Declare`). -/
inductive AccountTransaction where
  | Declare (tx : TxFields)
  | DeployAccount (tx : TxFields)
  | Invoke (tx : TxFields)
  deriving Repr, DecidableEq

/-- Projection onto the common transaction fields. -/
def AccountTransaction.common : AccountTransaction → TxFields
  | .Declare t => t
  | .DeployAccount t => t
  | .Invoke t => t

/-- True exactly on the `DeployAccount` variant (the `if let` test at line 87
of the source). -/
def AccountTransaction.isDeployAccount : AccountTransaction → Bool
  | .DeployAccount _ => true
  | _ => false

/-- Modelled from the spec: protocol-wide versioned constants; only the
initial gas budget `tx_initial_gas()` is consulted by the validator. -/
structure VersionedConstants where
  tx_initial_gas : Nat
  deriving Repr, DecidableEq

/-- Modelled from the spec: block-wide context; only `versioned_constants()`
is consulted directly by the validator. -/
structure BlockContext where
  versioned_constants : VersionedConstants
  deriving Repr, DecidableEq

/-- Modelled from the spec: transaction-specific info inside a transaction
context, exposing `sender_address()` and `nonce()`. -/
structure TransactionInfo where
  sender_address : ContractAddress
  nonce : Nonce
  deriving Repr, DecidableEq

/-- Modelled from the spec: the derived, read-only transaction context
combining the block context with the transaction's info. -/
structure TransactionContext where
  block_context : BlockContext
  tx_info : TransactionInfo
  deriving Repr, DecidableEq

/-- Modelled from the spec: `BlockContext::to_tx_context` derives the
read-only context from the block context and the transaction's own fields. -/
def BlockContext.to_tx_context (bc : BlockContext) (tx : AccountTransaction) :
    TransactionContext :=
  { block_context := bc
    tx_info :=
      { sender_address := tx.common.sender_address
        nonce := tx.common.nonce } }

/-- Modelled from the spec: the state overlay (`CachedState`).  `nonces` is
the per-account nonce table; `nonce_err` marks addresses whose backing store
cannot be resolved (the overlay's failure mode); `storage` is the opaque rest
of the overlay, the only part account code may write during validation. -/
structure CachedState where
  nonce_err : ContractAddress → Option StateError
  nonces : ContractAddress → Nonce
  storage : Nat → Nat

/-- Modelled from the spec: `get_nonce_at`, a read that fails with a state
error when the overlay cannot resolve the address. -/
def CachedState.get_nonce_at (s : CachedState) (a : ContractAddress) :
    Except StateError Nonce :=
  match s.nonce_err a with
  | some e => .error e
  | none => .ok (s.nonces a)

/-- Pointwise update of the overlay's nonce table. -/
def CachedState.set_nonce (s : CachedState) (a : ContractAddress) (n : Nonce) :
    CachedState :=
  { s with nonces := fun b => if b = a then n else s.nonces b }

/-- Modelled from the spec: `increment_nonce`, adding one to the stored nonce
of the address, failing (and changing nothing) when the overlay cannot
resolve it. -/
def CachedState.increment_nonce (s : CachedState) (a : ContractAddress) :
    Except StateError CachedState :=
  match s.nonce_err a with
  | some e => .error e
  | none => .ok (s.set_nonce a (s.nonces a + 1))

/-- The message of the `expect` guarding the optional block-state slot
(`BLOCK_STATE_ACCESS_ERR`, imported from the transaction-executor module). -/
def BLOCK_STATE_ACCESS_ERR : String := "Error: The block state should be `Some`."

/-- The wrapping `TransactionExecutor`: the optional state-overlay slot and
the block context, the two fields the validator reads. -/
structure TransactionExecutor where
  block_state : Option CachedState
  block_context : BlockContext

/-- `StatefulValidator` (lines 47-50): the wrapped executor and the
configured `max_nonce_for_validation_skip`. -/
structure StatefulValidator where
  tx_executor : TransactionExecutor
  max_nonce_for_validation_skip : Nonce

/-- `StatefulValidator::create` (lines 53-61): builds an executor holding the
given state overlay and block context, then wraps it.  Modelled from the
spec for `TransactionExecutor::new`, which attaches the state to the slot. -/
def StatefulValidator.create (state : CachedState) (block_context : BlockContext)
    (max_nonce_for_validation_skip : Nonce) : StatefulValidator :=
  { tx_executor := { block_state := some state, block_context := block_context }
    max_nonce_for_validation_skip := max_nonce_for_validation_skip }

/-- Modelled from the spec: the external collaborators invoked by the
orchestrator, as oracle functions.  `validate_tx` returns the optional call
trace, the resources consumed, and the new storage component of the overlay
(account code run in validation mode writes storage but never the
protocol-level nonce table).  `post_validation_verify` fails with the
transaction-execution error type, the type through which the `?` operator at
line 109 converts it. -/
structure Env where
  pre_validation_stage :
    AccountTransaction → TransactionContext → Bool → Bool → CachedState →
      Except TransactionPreValidationError Unit
  validate_tx :
    AccountTransaction → TransactionContext → Nat → Bool → CachedState →
      Except TransactionExecutionError (Option CallInfo × ExecutionResources × (Nat → Nat))
  get_actual_state_changes :
    CachedState → Except StateError StateChanges
  receipt_from_account_tx :
    AccountTransaction → TransactionContext → StateChanges → ExecutionResources →
      Option CallInfo → Nat → Except TransactionExecutionError TransactionReceipt
  post_validation_verify :
    TransactionContext → TransactionReceipt → Except TransactionExecutionError Unit
  executor_execute :
    AccountTransaction → Option CachedState →
      Except TransactionExecutorError (Option CachedState)

/-- Instrumentation events: one per collaborator invocation, recording the
arguments the claims talk about. -/
inductive Event where
  | executeRun
  | preValidationRun (fee_check : Bool)
  | validateTxRun (remaining_gas : Nat) (limit_steps_by_resources : Bool)
  | receiptBuilt (extra_da_cost : Nat)
  | postValidationRun
  | nonceIncremented (addr : ContractAddress)
  deriving Repr, DecidableEq

/-- Outcome of one orchestrator operation: a value, a `StatefulValidatorError`,
or the `expect` branch firing (`panicked`). -/
inductive Outcome (α : Type) where
  | ok (a : α)
  | err (e : StatefulValidatorError)
  | panicked (msg : String)
  deriving Repr, DecidableEq

/-- Result of running one orchestrator operation: outcome, the validator
afterwards, and the trace of collaborator invocations. -/
structure RunResult (α : Type) where
  out : Outcome α
  validator : StatefulValidator
  trace : List Event

/-- View of the nonce table through the optional block-state slot. -/
def StatefulValidator.nonceView (v : StatefulValidator) (a : ContractAddress) :
    Option Nonce :=
  v.tx_executor.block_state.map fun st => st.nonces a

/-- The validator with its executor's block-state slot replaced. -/
def StatefulValidator.with_state (v : StatefulValidator) (slot : Option CachedState) :
    StatefulValidator :=
  { v with tx_executor := { v.tx_executor with block_state := slot } }

/-- `StatefulValidator::execute` (lines 128-131): delegate to the executor's
general execute path. -/
def StatefulValidator.execute (env : Env) (v : StatefulValidator)
    (tx : AccountTransaction) : RunResult Unit :=
  match env.executor_execute tx v.tx_executor.block_state with
  | .error e => ⟨.err (.TransactionExecutorError e), v, [.executeRun]⟩
  | .ok slot => ⟨.ok (), v.with_state slot, [.executeRun]⟩

/-- `StatefulValidator::perform_pre_validation_stage` (lines 133-149): fetch
the block state through the `expect` guard and run the transaction's
pre-validation with the given fee-check flag and a non-strict nonce check. -/
def StatefulValidator.perform_pre_validation_stage (env : Env)
    (v : StatefulValidator) (tx : AccountTransaction)
    (tx_context : TransactionContext) (fee_check : Bool) : RunResult Unit :=
  let strict_nonce_check := false
  match v.tx_executor.block_state with
  | none => ⟨.panicked BLOCK_STATE_ACCESS_ERR, v, []⟩
  | some st =>
      match env.pre_validation_stage tx tx_context fee_check strict_nonce_check st with
      | .error e =>
          ⟨.err (.TransactionPreValidationError e), v, [.preValidationRun fee_check]⟩
      | .ok _ => ⟨.ok (), v, [.preValidationRun fee_check]⟩

/-- `StatefulValidator::validate` (lines 180-212): run the account's
`validate` entry point with `limit_steps_by_resources = true`, then assemble
the receipt from the context, the actual state changes, the resources and the
optional call info, with the extra data-availability cost argument `0`. -/
def StatefulValidator.validate (env : Env) (v : StatefulValidator)
    (tx : AccountTransaction) (remaining_gas : Nat) :
    RunResult (Option CallInfo × TransactionReceipt) :=
  let tx_context := v.tx_executor.block_context.to_tx_context tx
  let limit_steps_by_resources := true
  match v.tx_executor.block_state with
  | none => ⟨.panicked BLOCK_STATE_ACCESS_ERR, v, []⟩
  | some st =>
      match env.validate_tx tx tx_context remaining_gas limit_steps_by_resources st with
      | .error e =>
          ⟨.err (.TransactionExecutionError e), v,
            [.validateTxRun remaining_gas limit_steps_by_resources]⟩
      | .ok (validate_call_info, execution_resources, storage) =>
          let st' : CachedState := { st with storage := storage }
          let v' : StatefulValidator := v.with_state (some st')
          match env.get_actual_state_changes st' with
          | .error e =>
              ⟨.err (.StateError e), v',
                [.validateTxRun remaining_gas limit_steps_by_resources]⟩
          | .ok changes =>
              match env.receipt_from_account_tx tx tx_context changes
                  execution_resources validate_call_info 0 with
              | .error e =>
                  ⟨.err (.TransactionExecutionError e), v',
                    [.validateTxRun remaining_gas limit_steps_by_resources,
                      .receiptBuilt 0]⟩
              | .ok tx_receipt =>
                  ⟨.ok (validate_call_info, tx_receipt), v',
                    [.validateTxRun remaining_gas limit_steps_by_resources,
                      .receiptBuilt 0]⟩

/-- The nonce commit of `perform_validations` (lines 119-123): fetch the
block state through the `expect` guard and increment the sender's nonce. -/
def StatefulValidator.nonce_commit (v : StatefulValidator)
    (tx_context : TransactionContext) (tr : List Event) : RunResult Unit :=
  match v.tx_executor.block_state with
  | none => ⟨.panicked BLOCK_STATE_ACCESS_ERR, v, tr⟩
  | some st =>
      match st.increment_nonce tx_context.tx_info.sender_address with
      | .error e => ⟨.err (.StateError e), v, tr⟩
      | .ok st' =>
          ⟨.ok (), v.with_state (some st'),
            tr ++ [.nonceIncremented tx_context.tx_info.sender_address]⟩

/-- The non-deploy part of `perform_validations` (lines 95-125): derive the
context, pre-validate with `!skip_fee_check`, optionally run the validation
stage and the post-validation report, then commit the nonce. -/
def StatefulValidator.perform_validations_rest (env : Env) (v : StatefulValidator)
    (tx : AccountTransaction) (skip_validate : Bool) (skip_fee_check : Bool) :
    RunResult Unit :=
  let tx_context := v.tx_executor.block_context.to_tx_context tx
  let pre := StatefulValidator.perform_pre_validation_stage env v tx tx_context (!skip_fee_check)
  match pre.out with
  | .panicked m => ⟨.panicked m, pre.validator, pre.trace⟩
  | .err e => ⟨.err e, pre.validator, pre.trace⟩
  | .ok _ =>
      if skip_validate then
        StatefulValidator.nonce_commit pre.validator tx_context pre.trace
      else
        let r := StatefulValidator.validate env pre.validator tx
          tx_context.block_context.versioned_constants.tx_initial_gas
        match r.out with
        | .panicked m => ⟨.panicked m, r.validator, pre.trace ++ r.trace⟩
        | .err e => ⟨.err e, r.validator, pre.trace ++ r.trace⟩
        | .ok (_optional_call_info, actual_cost) =>
            match env.post_validation_verify tx_context actual_cost with
            | .error e =>
                ⟨.err (.TransactionExecutionError e), r.validator,
                  pre.trace ++ r.trace ++ [.postValidationRun]⟩
            | .ok _ =>
                StatefulValidator.nonce_commit r.validator tx_context
                  (pre.trace ++ r.trace ++ [.postValidationRun])

/-- `StatefulValidator::perform_validations` (lines 78-126): deploy-account
transactions take the fast path through `execute` and return; every other
transaction goes through the staged pipeline. -/
def StatefulValidator.perform_validations (env : Env) (v : StatefulValidator)
    (tx : AccountTransaction) (skip_validate : Bool) (skip_fee_check : Bool) :
    RunResult Unit :=
  match tx with
  | .DeployAccount _ => StatefulValidator.execute env v tx
  | _ => StatefulValidator.perform_validations_rest env v tx skip_validate skip_fee_check

/-- `StatefulValidator::skip_validate_due_to_unprocessed_deploy_account`
(lines 154-178): read the sender's current nonce through the `expect` guard,
then decide the skip from the three conjuncts of the source. -/
def StatefulValidator.skip_validate_due_to_unprocessed_deploy_account
    (v : StatefulValidator) (tx_info : TransactionInfo)
    (deploy_account_tx_hash : Option TransactionHash) : RunResult Bool :=
  match v.tx_executor.block_state with
  | none => ⟨.panicked BLOCK_STATE_ACCESS_ERR, v, []⟩
  | some st =>
      match st.get_nonce_at tx_info.sender_address with
      | .error e => ⟨.err (.StateError e), v, []⟩
      | .ok nonce =>
          let tx_nonce := tx_info.nonce
          let deploy_account_not_processed :=
            deploy_account_tx_hash.isSome && nonce == 0
          let is_post_deploy_nonce := decide (1 ≤ tx_nonce)
          let nonce_small_enough_to_qualify_for_validation_skip :=
            decide (tx_nonce ≤ v.max_nonce_for_validation_skip)
          let skip_validate := deploy_account_not_processed
            && is_post_deploy_nonce
            && nonce_small_enough_to_qualify_for_validation_skip
          ⟨.ok skip_validate, v, []⟩

/-- `StatefulValidator::get_nonce` (lines 214-225): read the address's nonce
through the `expect` guard. -/
def StatefulValidator.get_nonce (v : StatefulValidator)
    (account_address : ContractAddress) : RunResult Nonce :=
  match v.tx_executor.block_state with
  | none => ⟨.panicked BLOCK_STATE_ACCESS_ERR, v, []⟩
  | some st =>
      match st.get_nonce_at account_address with
      | .error e => ⟨.err (.StateError e), v, []⟩
      | .ok n => ⟨.ok n, v, []⟩

/-! Concrete fixtures used by witnesses and counterexamples. -/

/-- A resolvable overlay whose every nonce is zero. -/
def stZero : CachedState :=
  { nonce_err := fun _ => none, nonces := fun _ => 0, storage := fun _ => 0 }

/-- A block context with initial gas budget 100. -/
def bcFix : BlockContext := { versioned_constants := { tx_initial_gas := 100 } }

/-- A validator over `stZero` with `max_nonce_for_validation_skip = 3`. -/
def vFix : StatefulValidator := StatefulValidator.create stZero bcFix 3

/-- A validator whose block-state slot is empty. -/
def vNone : StatefulValidator :=
  { tx_executor := { block_state := none, block_context := bcFix }
    max_nonce_for_validation_skip := 3 }

/-- An environment in which every collaborator succeeds. -/
def envOk : Env :=
  { pre_validation_stage := fun _ _ _ _ _ => .ok ()
    validate_tx := fun _ _ _ _ st => .ok (none, 0, st.storage)
    get_actual_state_changes := fun _ => .ok 0
    receipt_from_account_tx := fun _ _ _ _ _ _ => .ok 0
    post_validation_verify := fun _ _ => .ok ()
    executor_execute := fun _ s => .ok s }

/-- Like `envOk`, but pre-validation fails with payload 5. -/
def envPreFail : Env :=
  { envOk with pre_validation_stage := fun _ _ _ _ _ => .error ⟨5⟩ }

/-- Like `envOk`, but the account's validate call fails with payload 7. -/
def envValFail : Env :=
  { envOk with validate_tx := fun _ _ _ _ _ => .error ⟨7⟩ }

/-- Like `envOk`, but the post-validation report fails with payload 42. -/
def envPostFail : Env :=
  { envOk with post_validation_verify := fun _ _ => .error ⟨42⟩ }

/-! Helper lemmas. -/

/-- The derived context carries the block context unchanged. -/
@[simp] theorem to_tx_context_block_context (bc : BlockContext) (tx : AccountTransaction) :
    (bc.to_tx_context tx).block_context = bc := rfl

/-- The derived context carries the transaction's sender address. -/
@[simp] theorem to_tx_context_sender (bc : BlockContext) (tx : AccountTransaction) :
    (bc.to_tx_context tx).tx_info.sender_address = tx.common.sender_address := rfl

/-- The derived context carries the transaction's nonce. -/
@[simp] theorem to_tx_context_nonce (bc : BlockContext) (tx : AccountTransaction) :
    (bc.to_tx_context tx).tx_info.nonce = tx.common.nonce := rfl

/-- The executor fast path records exactly one `executeRun` event. -/
theorem execute_trace (env : Env) (v : StatefulValidator) (tx : AccountTransaction) :
    (StatefulValidator.execute env v tx).trace = [Event.executeRun] := by
  unfold StatefulValidator.execute
  split <;> rfl

/-- On a non-deploy transaction, `perform_validations` runs the staged
pipeline. -/
theorem perform_validations_eq_rest (env : Env) (v : StatefulValidator)
    (tx : AccountTransaction) (sv sf : Bool) (h : tx.isDeployAccount = false) :
    StatefulValidator.perform_validations env v tx sv sf =
      StatefulValidator.perform_validations_rest env v tx sv sf := by
  cases tx with
  | Declare t => rfl
  | Invoke t => rfl
  | DeployAccount t => simp [AccountTransaction.isDeployAccount] at h

/-- With the slot occupied and pre-validation failing, the pipeline stops at
the pre-validation stage. -/
theorem rest_pre_error (env : Env) (v : StatefulValidator) (tx : AccountTransaction)
    (sv sf : Bool) (st : CachedState) (e : TransactionPreValidationError)
    (hs : v.tx_executor.block_state = some st)
    (hp : env.pre_validation_stage tx (v.tx_executor.block_context.to_tx_context tx)
      (!sf) false st = .error e) :
    StatefulValidator.perform_validations_rest env v tx sv sf =
      ⟨.err (.TransactionPreValidationError e), v, [.preValidationRun (!sf)]⟩ := by
  unfold StatefulValidator.perform_validations_rest
    StatefulValidator.perform_pre_validation_stage
  rw [hs]
  simp [hp]

/-- With the slot occupied, pre-validation succeeding and `skip_validate`
set, the pipeline goes straight to the nonce commit. -/
theorem rest_pre_ok_skip (env : Env) (v : StatefulValidator) (tx : AccountTransaction)
    (sf : Bool) (st : CachedState)
    (hs : v.tx_executor.block_state = some st)
    (hp : env.pre_validation_stage tx (v.tx_executor.block_context.to_tx_context tx)
      (!sf) false st = .ok ()) :
    StatefulValidator.perform_validations_rest env v tx true sf =
      StatefulValidator.nonce_commit v (v.tx_executor.block_context.to_tx_context tx)
        [.preValidationRun (!sf)] := by
  unfold StatefulValidator.perform_validations_rest
    StatefulValidator.perform_pre_validation_stage
  rw [hs]
  simp [hp]

/-- With the slot occupied, pre-validation succeeding and `skip_validate`
unset, the pipeline runs the validation stage, the post-validation report and
then the nonce commit. -/
theorem rest_pre_ok_run (env : Env) (v : StatefulValidator) (tx : AccountTransaction)
    (sf : Bool) (st : CachedState)
    (hs : v.tx_executor.block_state = some st)
    (hp : env.pre_validation_stage tx (v.tx_executor.block_context.to_tx_context tx)
      (!sf) false st = .ok ()) :
    StatefulValidator.perform_validations_rest env v tx false sf =
      (let r := StatefulValidator.validate env v tx
        v.tx_executor.block_context.versioned_constants.tx_initial_gas
      match r.out with
      | .panicked m => ⟨.panicked m, r.validator, .preValidationRun (!sf) :: r.trace⟩
      | .err e => ⟨.err e, r.validator, .preValidationRun (!sf) :: r.trace⟩
      | .ok (_, actual_cost) =>
          match env.post_validation_verify
              (v.tx_executor.block_context.to_tx_context tx) actual_cost with
          | .error e =>
              ⟨.err (.TransactionExecutionError e), r.validator,
                .preValidationRun (!sf) :: (r.trace ++ [.postValidationRun])⟩
          | .ok _ =>
              StatefulValidator.nonce_commit r.validator
                (v.tx_executor.block_context.to_tx_context tx)
                (.preValidationRun (!sf) :: (r.trace ++ [.postValidationRun]))) := by
  unfold StatefulValidator.perform_validations_rest
    StatefulValidator.perform_pre_validation_stage
  rw [hs]
  simp [hp]

/-- With the slot occupied and the account's validate call failing, the
validation stage stops there. -/
theorem validate_tx_error (env : Env) (v : StatefulValidator)
    (tx : AccountTransaction) (g : Nat) (st : CachedState)
    (e : TransactionExecutionError)
    (hs : v.tx_executor.block_state = some st)
    (hv : env.validate_tx tx (v.tx_executor.block_context.to_tx_context tx)
      g true st = .error e) :
    StatefulValidator.validate env v tx g =
      ⟨.err (.TransactionExecutionError e), v, [.validateTxRun g true]⟩ := by
  unfold StatefulValidator.validate
  rw [hs]
  simp [hv]

/-- With the slot occupied, the validate call succeeding and the state-diff
read failing, the validation stage stops with a state error. -/
theorem validate_changes_error (env : Env) (v : StatefulValidator)
    (tx : AccountTransaction) (g : Nat) (st : CachedState)
    (ci : Option CallInfo) (res : ExecutionResources) (stor : Nat → Nat)
    (e : StateError)
    (hs : v.tx_executor.block_state = some st)
    (hv : env.validate_tx tx (v.tx_executor.block_context.to_tx_context tx)
      g true st = .ok (ci, res, stor))
    (hc : env.get_actual_state_changes { st with storage := stor } = .error e) :
    StatefulValidator.validate env v tx g =
      ⟨.err (.StateError e), v.with_state (some { st with storage := stor }),
        [.validateTxRun g true]⟩ := by
  unfold StatefulValidator.validate
  rw [hs]
  simp [hv, hc]

/-- With the slot occupied, the validate call and the diff read succeeding
and the receipt assembly failing, the validation stage stops there. -/
theorem validate_receipt_error (env : Env) (v : StatefulValidator)
    (tx : AccountTransaction) (g : Nat) (st : CachedState)
    (ci : Option CallInfo) (res : ExecutionResources) (stor : Nat → Nat)
    (ch : StateChanges) (e : TransactionExecutionError)
    (hs : v.tx_executor.block_state = some st)
    (hv : env.validate_tx tx (v.tx_executor.block_context.to_tx_context tx)
      g true st = .ok (ci, res, stor))
    (hc : env.get_actual_state_changes { st with storage := stor } = .ok ch)
    (hr : env.receipt_from_account_tx tx (v.tx_executor.block_context.to_tx_context tx)
      ch res ci 0 = .error e) :
    StatefulValidator.validate env v tx g =
      ⟨.err (.TransactionExecutionError e),
        v.with_state (some { st with storage := stor }),
        [.validateTxRun g true, .receiptBuilt 0]⟩ := by
  unfold StatefulValidator.validate
  rw [hs]
  simp [hv, hc, hr]

/-- With the slot occupied and every collaborator of the validation stage
succeeding, the stage returns the optional call info and the receipt built
with extra data-availability cost 0. -/
theorem validate_ok (env : Env) (v : StatefulValidator)
    (tx : AccountTransaction) (g : Nat) (st : CachedState)
    (ci : Option CallInfo) (res : ExecutionResources) (stor : Nat → Nat)
    (ch : StateChanges) (rec : TransactionReceipt)
    (hs : v.tx_executor.block_state = some st)
    (hv : env.validate_tx tx (v.tx_executor.block_context.to_tx_context tx)
      g true st = .ok (ci, res, stor))
    (hc : env.get_actual_state_changes { st with storage := stor } = .ok ch)
    (hr : env.receipt_from_account_tx tx (v.tx_executor.block_context.to_tx_context tx)
      ch res ci 0 = .ok rec) :
    StatefulValidator.validate env v tx g =
      ⟨.ok (ci, rec), v.with_state (some { st with storage := stor }),
        [.validateTxRun g true, .receiptBuilt 0]⟩ := by
  unfold StatefulValidator.validate
  rw [hs]
  simp [hv, hc, hr]

/-- With the slot occupied and the sender's slot unresolvable, the nonce
commit fails with a state error and changes nothing. -/
theorem nonce_commit_error (v : StatefulValidator) (ctx : TransactionContext)
    (tr : List Event) (st : CachedState) (e : StateError)
    (hs : v.tx_executor.block_state = some st)
    (he : st.nonce_err ctx.tx_info.sender_address = some e) :
    StatefulValidator.nonce_commit v ctx tr = ⟨.err (.StateError e), v, tr⟩ := by
  unfold StatefulValidator.nonce_commit CachedState.increment_nonce
  rw [hs]
  simp [he]

/-- With the slot occupied and the sender's slot resolvable, the nonce commit
adds one to the sender's nonce and records the increment event. -/
theorem nonce_commit_ok (v : StatefulValidator) (ctx : TransactionContext)
    (tr : List Event) (st : CachedState)
    (hs : v.tx_executor.block_state = some st)
    (he : st.nonce_err ctx.tx_info.sender_address = none) :
    StatefulValidator.nonce_commit v ctx tr =
      ⟨.ok (),
        v.with_state (some (st.set_nonce ctx.tx_info.sender_address
          (st.nonces ctx.tx_info.sender_address + 1))),
        tr ++ [.nonceIncremented ctx.tx_info.sender_address]⟩ := by
  unfold StatefulValidator.nonce_commit CachedState.increment_nonce
  rw [hs]
  simp [he]

/-- Complete case analysis of the staged pipeline under an occupied slot:
every run falls into exactly one of the nine outcome shapes, with the
validator and trace given explicitly in each. -/
theorem rest_cases (env : Env) (v : StatefulValidator) (tx : AccountTransaction)
    (sv sf : Bool) (st : CachedState)
    (hs : v.tx_executor.block_state = some st) :
    (∃ e, env.pre_validation_stage tx (v.tx_executor.block_context.to_tx_context tx)
        (!sf) false st = .error e ∧
      StatefulValidator.perform_validations_rest env v tx sv sf =
        ⟨.err (.TransactionPreValidationError e), v, [.preValidationRun (!sf)]⟩) ∨
    (env.pre_validation_stage tx (v.tx_executor.block_context.to_tx_context tx)
        (!sf) false st = .ok () ∧ sv = true ∧
      ∃ e, st.nonce_err tx.common.sender_address = some e ∧
      StatefulValidator.perform_validations_rest env v tx sv sf =
        ⟨.err (.StateError e), v, [.preValidationRun (!sf)]⟩) ∨
    (env.pre_validation_stage tx (v.tx_executor.block_context.to_tx_context tx)
        (!sf) false st = .ok () ∧ sv = true ∧
      st.nonce_err tx.common.sender_address = none ∧
      StatefulValidator.perform_validations_rest env v tx sv sf =
        ⟨.ok (),
          v.with_state (some (st.set_nonce tx.common.sender_address
            (st.nonces tx.common.sender_address + 1))),
          [.preValidationRun (!sf), .nonceIncremented tx.common.sender_address]⟩) ∨
    (env.pre_validation_stage tx (v.tx_executor.block_context.to_tx_context tx)
        (!sf) false st = .ok () ∧ sv = false ∧
      ∃ e, env.validate_tx tx (v.tx_executor.block_context.to_tx_context tx)
        v.tx_executor.block_context.versioned_constants.tx_initial_gas true st = .error e ∧
      StatefulValidator.perform_validations_rest env v tx sv sf =
        ⟨.err (.TransactionExecutionError e), v,
          [.preValidationRun (!sf),
            .validateTxRun v.tx_executor.block_context.versioned_constants.tx_initial_gas
              true]⟩) ∨
    (env.pre_validation_stage tx (v.tx_executor.block_context.to_tx_context tx)
        (!sf) false st = .ok () ∧ sv = false ∧
      ∃ ci res stor e,
        env.validate_tx tx (v.tx_executor.block_context.to_tx_context tx)
          v.tx_executor.block_context.versioned_constants.tx_initial_gas true st
          = .ok (ci, res, stor) ∧
        env.get_actual_state_changes { st with storage := stor } = .error e ∧
      StatefulValidator.perform_validations_rest env v tx sv sf =
        ⟨.err (.StateError e), v.with_state (some { st with storage := stor }),
          [.preValidationRun (!sf),
            .validateTxRun v.tx_executor.block_context.versioned_constants.tx_initial_gas
              true]⟩) ∨
    (env.pre_validation_stage tx (v.tx_executor.block_context.to_tx_context tx)
        (!sf) false st = .ok () ∧ sv = false ∧
      ∃ ci res stor ch e,
        env.validate_tx tx (v.tx_executor.block_context.to_tx_context tx)
          v.tx_executor.block_context.versioned_constants.tx_initial_gas true st
          = .ok (ci, res, stor) ∧
        env.get_actual_state_changes { st with storage := stor } = .ok ch ∧
        env.receipt_from_account_tx tx (v.tx_executor.block_context.to_tx_context tx)
          ch res ci 0 = .error e ∧
      StatefulValidator.perform_validations_rest env v tx sv sf =
        ⟨.err (.TransactionExecutionError e),
          v.with_state (some { st with storage := stor }),
          [.preValidationRun (!sf),
            .validateTxRun v.tx_executor.block_context.versioned_constants.tx_initial_gas
              true, .receiptBuilt 0]⟩) ∨
    (env.pre_validation_stage tx (v.tx_executor.block_context.to_tx_context tx)
        (!sf) false st = .ok () ∧ sv = false ∧
      ∃ ci res stor ch rec e,
        env.validate_tx tx (v.tx_executor.block_context.to_tx_context tx)
          v.tx_executor.block_context.versioned_constants.tx_initial_gas true st
          = .ok (ci, res, stor) ∧
        env.get_actual_state_changes { st with storage := stor } = .ok ch ∧
        env.receipt_from_account_tx tx (v.tx_executor.block_context.to_tx_context tx)
          ch res ci 0 = .ok rec ∧
        env.post_validation_verify (v.tx_executor.block_context.to_tx_context tx) rec
          = .error e ∧
      StatefulValidator.perform_validations_rest env v tx sv sf =
        ⟨.err (.TransactionExecutionError e),
          v.with_state (some { st with storage := stor }),
          [.preValidationRun (!sf),
            .validateTxRun v.tx_executor.block_context.versioned_constants.tx_initial_gas
              true, .receiptBuilt 0, .postValidationRun]⟩) ∨
    (env.pre_validation_stage tx (v.tx_executor.block_context.to_tx_context tx)
        (!sf) false st = .ok () ∧ sv = false ∧
      ∃ ci res stor ch rec e,
        env.validate_tx tx (v.tx_executor.block_context.to_tx_context tx)
          v.tx_executor.block_context.versioned_constants.tx_initial_gas true st
          = .ok (ci, res, stor) ∧
        env.get_actual_state_changes { st with storage := stor } = .ok ch ∧
        env.receipt_from_account_tx tx (v.tx_executor.block_context.to_tx_context tx)
          ch res ci 0 = .ok rec ∧
        env.post_validation_verify (v.tx_executor.block_context.to_tx_context tx) rec
          = .ok () ∧
        st.nonce_err tx.common.sender_address = some e ∧
      StatefulValidator.perform_validations_rest env v tx sv sf =
        ⟨.err (.StateError e), v.with_state (some { st with storage := stor }),
          [.preValidationRun (!sf),
            .validateTxRun v.tx_executor.block_context.versioned_constants.tx_initial_gas
              true, .receiptBuilt 0, .postValidationRun]⟩) ∨
    (env.pre_validation_stage tx (v.tx_executor.block_context.to_tx_context tx)
        (!sf) false st = .ok () ∧ sv = false ∧
      ∃ ci res stor ch rec,
        env.validate_tx tx (v.tx_executor.block_context.to_tx_context tx)
          v.tx_executor.block_context.versioned_constants.tx_initial_gas true st
          = .ok (ci, res, stor) ∧
        env.get_actual_state_changes { st with storage := stor } = .ok ch ∧
        env.receipt_from_account_tx tx (v.tx_executor.block_context.to_tx_context tx)
          ch res ci 0 = .ok rec ∧
        env.post_validation_verify (v.tx_executor.block_context.to_tx_context tx) rec
          = .ok () ∧
        st.nonce_err tx.common.sender_address = none ∧
      StatefulValidator.perform_validations_rest env v tx sv sf =
        ⟨.ok (),
          v.with_state (some (CachedState.set_nonce { st with storage := stor }
            tx.common.sender_address (st.nonces tx.common.sender_address + 1))),
          [.preValidationRun (!sf),
            .validateTxRun v.tx_executor.block_context.versioned_constants.tx_initial_gas
              true, .receiptBuilt 0, .postValidationRun,
            .nonceIncremented tx.common.sender_address]⟩) := by
  rcases hp : env.pre_validation_stage tx (v.tx_executor.block_context.to_tx_context tx)
      (!sf) false st with e | u
  · exact Or.inl ⟨e, rfl, rest_pre_error env v tx sv sf st e hs hp⟩
  · cases u
    cases sv with
    | true =>
      have h2 := rest_pre_ok_skip env v tx sf st hs hp
      rcases he : st.nonce_err tx.common.sender_address with _ | e
      · refine Or.inr (Or.inr (Or.inl ⟨rfl, rfl, rfl, ?_⟩))
        rw [h2, nonce_commit_ok v _ _ st hs he]
        simp
      · refine Or.inr (Or.inl ⟨rfl, rfl, e, rfl, ?_⟩)
        rw [h2, nonce_commit_error v _ _ st e hs he]
    | false =>
      have h3 := rest_pre_ok_run env v tx sf st hs hp
      rcases hv : env.validate_tx tx (v.tx_executor.block_context.to_tx_context tx)
          v.tx_executor.block_context.versioned_constants.tx_initial_gas true st
        with e | ⟨ci, res, stor⟩
      · refine Or.inr (Or.inr (Or.inr (Or.inl ⟨rfl, rfl, e, rfl, ?_⟩)))
        rw [h3, validate_tx_error env v tx _ st e hs hv]
      · rcases hc : env.get_actual_state_changes { st with storage := stor }
          with e | ch
        · refine Or.inr (Or.inr (Or.inr (Or.inr (Or.inl
            ⟨rfl, rfl, ci, res, stor, e, rfl, hc, ?_⟩))))
          rw [h3, validate_changes_error env v tx _ st ci res stor e hs hv hc]
        · rcases hr : env.receipt_from_account_tx tx
              (v.tx_executor.block_context.to_tx_context tx) ch res ci 0
            with e | rec
          · refine Or.inr (Or.inr (Or.inr (Or.inr (Or.inr (Or.inl
              ⟨rfl, rfl, ci, res, stor, ch, e, rfl, hc, hr, ?_⟩)))))
            rw [h3, validate_receipt_error env v tx _ st ci res stor ch e hs hv hc hr]
          · rcases hpv : env.post_validation_verify
                (v.tx_executor.block_context.to_tx_context tx) rec with e | u'
            · refine Or.inr (Or.inr (Or.inr (Or.inr (Or.inr (Or.inr (Or.inl
                ⟨rfl, rfl, ci, res, stor, ch, rec, e, rfl, hc, hr, hpv, ?_⟩))))))
              rw [h3, validate_ok env v tx _ st ci res stor ch rec hs hv hc hr]
              simp [hpv]
            · cases u'
              rcases he : st.nonce_err tx.common.sender_address with _ | e
              · refine Or.inr (Or.inr (Or.inr (Or.inr (Or.inr (Or.inr (Or.inr (Or.inr
                  ⟨rfl, rfl, ci, res, stor, ch, rec, rfl, hc, hr, hpv, rfl, ?_⟩)))))))
                rw [h3, validate_ok env v tx _ st ci res stor ch rec hs hv hc hr]
                simp only [hpv]
                rw [nonce_commit_ok (v.with_state (some { st with storage := stor }))
                  _ _ { st with storage := stor } rfl he]
                simp [StatefulValidator.with_state]
              · refine Or.inr (Or.inr (Or.inr (Or.inr (Or.inr (Or.inr (Or.inr (Or.inl
                  ⟨rfl, rfl, ci, res, stor, ch, rec, e, rfl, hc, hr, hpv, rfl, ?_⟩)))))))
                rw [h3, validate_ok env v tx _ st ci res stor ch rec hs hv hc hr]
                simp only [hpv]
                rw [nonce_commit_error (v.with_state (some { st with storage := stor }))
                  _ _ { st with storage := stor } e rfl he]
                simp

/-! Claim theorems. -/

/-- C1: a DeployAccount transaction is routed to the executor's full execute
path and the function returns at once: the run equals the `execute` call, its
trace is the single `executeRun` event, and no pre-validation, validation,
post-validation or orchestrator nonce-increment event occurs. -/
theorem claim_C1_deploy_fast_path (env : Env) (v : StatefulValidator)
    (t : TxFields) (skip_validate skip_fee_check : Bool) :
    StatefulValidator.perform_validations env v (.DeployAccount t)
        skip_validate skip_fee_check =
      StatefulValidator.execute env v (.DeployAccount t) ∧
    (StatefulValidator.perform_validations env v (.DeployAccount t)
        skip_validate skip_fee_check).trace = [Event.executeRun] ∧
    (∀ fc, Event.preValidationRun fc ∉
      (StatefulValidator.perform_validations env v (.DeployAccount t)
        skip_validate skip_fee_check).trace) ∧
    (∀ g l, Event.validateTxRun g l ∉
      (StatefulValidator.perform_validations env v (.DeployAccount t)
        skip_validate skip_fee_check).trace) ∧
    Event.postValidationRun ∉
      (StatefulValidator.perform_validations env v (.DeployAccount t)
        skip_validate skip_fee_check).trace ∧
    (∀ a, Event.nonceIncremented a ∉
      (StatefulValidator.perform_validations env v (.DeployAccount t)
        skip_validate skip_fee_check).trace) := by
  have htr : (StatefulValidator.perform_validations env v (.DeployAccount t)
      skip_validate skip_fee_check).trace = [Event.executeRun] := by
    show (StatefulValidator.execute env v (.DeployAccount t)).trace = _
    exact execute_trace env v _
  refine ⟨rfl, htr, ?_, ?_, ?_, ?_⟩ <;> simp [htr]

/-- C2: on a successful admission of a non-deploy transaction the sender's
nonce on the executor's overlay grows by exactly one and no other address
changes; and whatever the outcome, the orchestrator never decreases any
nonce. -/
theorem claim_C2_nonce_increment (env : Env) (v : StatefulValidator)
    (tx : AccountTransaction) (sv sf : Bool) (st : CachedState)
    (hnd : tx.isDeployAccount = false)
    (hs : v.tx_executor.block_state = some st) :
    ((StatefulValidator.perform_validations env v tx sv sf).out = .ok () →
      (StatefulValidator.perform_validations env v tx sv sf).validator.nonceView
          tx.common.sender_address
        = some (st.nonces tx.common.sender_address + 1) ∧
      ∀ a, a ≠ tx.common.sender_address →
        (StatefulValidator.perform_validations env v tx sv sf).validator.nonceView a
          = v.nonceView a) ∧
    (∀ a m m', v.nonceView a = some m →
      (StatefulValidator.perform_validations env v tx sv sf).validator.nonceView a
        = some m' →
      m ≤ m') := by
  rw [perform_validations_eq_rest env v tx sv sf hnd]
  rcases rest_cases env v tx sv sf st hs with
    ⟨e, hp, hR⟩ | ⟨hp, hsv, e, he, hR⟩ | ⟨hp, hsv, he, hR⟩ |
    ⟨hp, hsv, e, hv, hR⟩ | ⟨hp, hsv, ci, res, stor, e, hv, hc, hR⟩ |
    ⟨hp, hsv, ci, res, stor, ch, e, hv, hc, hr, hR⟩ |
    ⟨hp, hsv, ci, res, stor, ch, rec, e, hv, hc, hr, hpv, hR⟩ |
    ⟨hp, hsv, ci, res, stor, ch, rec, e, hv, hc, hr, hpv, he, hR⟩ |
    ⟨hp, hsv, ci, res, stor, ch, rec, hv, hc, hr, hpv, he, hR⟩ <;>
    rw [hR]
  · refine ⟨fun h => by simp at h, fun a m m' h1 h2 => ?_⟩
    simp [StatefulValidator.nonceView, StatefulValidator.with_state, hs] at h1 h2
    exact le_of_eq (h1.symm.trans h2)
  · refine ⟨fun h => by simp at h, fun a m m' h1 h2 => ?_⟩
    simp [StatefulValidator.nonceView, StatefulValidator.with_state, hs] at h1 h2
    exact le_of_eq (h1.symm.trans h2)
  · refine ⟨fun _ => ⟨?_, fun a ha => ?_⟩, fun a m m' h1 h2 => ?_⟩
    · simp [StatefulValidator.nonceView, StatefulValidator.with_state,
        CachedState.set_nonce]
    · simp [StatefulValidator.nonceView, StatefulValidator.with_state,
        CachedState.set_nonce, ha, hs]
    · simp [StatefulValidator.nonceView, hs] at h1
      by_cases hab : a = tx.common.sender_address
      · subst hab
        simp [StatefulValidator.nonceView, StatefulValidator.with_state,
          CachedState.set_nonce] at h2
        exact (h1.symm.le.trans (Nat.le_succ _)).trans_eq h2
      · simp [StatefulValidator.nonceView, StatefulValidator.with_state,
          CachedState.set_nonce, hab] at h2
        exact le_of_eq (h1.symm.trans h2)
  · refine ⟨fun h => by simp at h, fun a m m' h1 h2 => ?_⟩
    simp [StatefulValidator.nonceView, StatefulValidator.with_state, hs] at h1 h2
    exact le_of_eq (h1.symm.trans h2)
  · refine ⟨fun h => by simp at h, fun a m m' h1 h2 => ?_⟩
    simp [StatefulValidator.nonceView, StatefulValidator.with_state, hs] at h1 h2
    exact le_of_eq (h1.symm.trans h2)
  · refine ⟨fun h => by simp at h, fun a m m' h1 h2 => ?_⟩
    simp [StatefulValidator.nonceView, StatefulValidator.with_state, hs] at h1 h2
    exact le_of_eq (h1.symm.trans h2)
  · refine ⟨fun h => by simp at h, fun a m m' h1 h2 => ?_⟩
    simp [StatefulValidator.nonceView, StatefulValidator.with_state, hs] at h1 h2
    exact le_of_eq (h1.symm.trans h2)
  · refine ⟨fun h => by simp at h, fun a m m' h1 h2 => ?_⟩
    simp [StatefulValidator.nonceView, StatefulValidator.with_state, hs] at h1 h2
    exact le_of_eq (h1.symm.trans h2)
  · refine ⟨fun _ => ⟨?_, fun a ha => ?_⟩, fun a m m' h1 h2 => ?_⟩
    · simp [StatefulValidator.nonceView, StatefulValidator.with_state,
        CachedState.set_nonce]
    · simp [StatefulValidator.nonceView, StatefulValidator.with_state,
        CachedState.set_nonce, ha, hs]
    · simp [StatefulValidator.nonceView, hs] at h1
      by_cases hab : a = tx.common.sender_address
      · subst hab
        simp [StatefulValidator.nonceView, StatefulValidator.with_state,
          CachedState.set_nonce] at h2
        exact (h1.symm.le.trans (Nat.le_succ _)).trans_eq h2
      · simp [StatefulValidator.nonceView, StatefulValidator.with_state,
          CachedState.set_nonce, hab] at h2
        exact le_of_eq (h1.symm.trans h2)

/-- Witness for C2: a successful admission of an Invoke transaction from
address 7 with nonce 0 over a zeroed overlay leaves address 7 with nonce 1. -/
theorem claim_C2_nonce_increment_witness :
    (StatefulValidator.perform_validations envOk vFix (.Invoke ⟨7, 0, 0⟩)
        false false).out = .ok () ∧
    (StatefulValidator.perform_validations envOk vFix (.Invoke ⟨7, 0, 0⟩)
        false false).validator.nonceView 7 = some 1 :=
  ⟨rfl,
    ((claim_C2_nonce_increment envOk vFix (.Invoke ⟨7, 0, 0⟩) false false stZero
      rfl rfl).1 rfl).1⟩

/-- C3: any failing stage short-circuits: an error outcome never carries a
nonce-increment event and leaves every nonce as it was; a failing
pre-validation returns its error with the pre-validation stage as the only
event; a failing validate call never reaches the post-validation report. -/
theorem claim_C3_error_short_circuit (env : Env) (v : StatefulValidator)
    (tx : AccountTransaction) (sv sf : Bool) (st : CachedState)
    (hnd : tx.isDeployAccount = false)
    (hs : v.tx_executor.block_state = some st) :
    (∀ e, (StatefulValidator.perform_validations env v tx sv sf).out = .err e →
      (∀ a, Event.nonceIncremented a ∉
        (StatefulValidator.perform_validations env v tx sv sf).trace) ∧
      (∀ a, (StatefulValidator.perform_validations env v tx sv sf).validator.nonceView a
        = v.nonceView a)) ∧
    (∀ e, env.pre_validation_stage tx (v.tx_executor.block_context.to_tx_context tx)
        (!sf) false st = .error e →
      (StatefulValidator.perform_validations env v tx sv sf).out
        = .err (.TransactionPreValidationError e) ∧
      (StatefulValidator.perform_validations env v tx sv sf).trace
        = [.preValidationRun (!sf)]) ∧
    (∀ e, sv = false →
      env.validate_tx tx (v.tx_executor.block_context.to_tx_context tx)
        v.tx_executor.block_context.versioned_constants.tx_initial_gas true st
        = .error e →
      Event.postValidationRun ∉
        (StatefulValidator.perform_validations env v tx sv sf).trace) := by
  rw [perform_validations_eq_rest env v tx sv sf hnd]
  refine ⟨?_, ?_, ?_⟩
  · rcases rest_cases env v tx sv sf st hs with
      ⟨e, hp, hR⟩ | ⟨hp, hsv, e, he, hR⟩ | ⟨hp, hsv, he, hR⟩ |
      ⟨hp, hsv, e, hv, hR⟩ | ⟨hp, hsv, ci, res, stor, e, hv, hc, hR⟩ |
      ⟨hp, hsv, ci, res, stor, ch, e, hv, hc, hr, hR⟩ |
      ⟨hp, hsv, ci, res, stor, ch, rec, e, hv, hc, hr, hpv, hR⟩ |
      ⟨hp, hsv, ci, res, stor, ch, rec, e, hv, hc, hr, hpv, he, hR⟩ |
      ⟨hp, hsv, ci, res, stor, ch, rec, hv, hc, hr, hpv, he, hR⟩ <;>
      rw [hR] <;>
      intro e' he' <;>
      (try simp at he') <;>
      exact ⟨fun a => by simp, fun a => by
        simp [StatefulValidator.nonceView, StatefulValidator.with_state, hs]⟩
  · intro e hp
    rw [rest_pre_error env v tx sv sf st e hs hp]
    exact ⟨rfl, rfl⟩
  · intro e hskip hv
    subst hskip
    rcases rest_cases env v tx false sf st hs with
      ⟨e', hp, hR⟩ | ⟨hp, hsv, e', he, hR⟩ | ⟨hp, hsv, he, hR⟩ |
      ⟨hp, hsv, e', hv', hR⟩ | ⟨hp, hsv, ci, res, stor, e', hv', hc, hR⟩ |
      ⟨hp, hsv, ci, res, stor, ch, e', hv', hc, hr, hR⟩ |
      ⟨hp, hsv, ci, res, stor, ch, rec, e', hv', hc, hr, hpv, hR⟩ |
      ⟨hp, hsv, ci, res, stor, ch, rec, e', hv', hc, hr, hpv, he, hR⟩ |
      ⟨hp, hsv, ci, res, stor, ch, rec, hv', hc, hr, hpv, he, hR⟩ <;>
      first
        | exact absurd hsv (by decide)
        | (simp [hv] at hv'; done)
        | (rw [hR]; simp; done)

/-- Witness for C3: a pre-validation failure with payload 5 is returned as
the pre-validation wrapping of that payload, with the pre-validation stage as
the only event. -/
theorem claim_C3_error_short_circuit_witness :
    (StatefulValidator.perform_validations envPreFail vFix (.Invoke ⟨7, 0, 0⟩)
        false false).out = .err (.TransactionPreValidationError ⟨5⟩) ∧
    (StatefulValidator.perform_validations envPreFail vFix (.Invoke ⟨7, 0, 0⟩)
        false false).trace = [Event.preValidationRun true] :=
  (claim_C3_error_short_circuit envPreFail vFix (.Invoke ⟨7, 0, 0⟩) false false
    stZero rfl rfl).2.1 ⟨5⟩ rfl

/-- C4: for a non-deploy transaction the pre-validation stage always runs
first, with its fee-check flag equal to the negation of `skip_fee_check`,
independently of `skip_validate`. -/
theorem claim_C4_fee_flag_independent (env : Env) (v : StatefulValidator)
    (tx : AccountTransaction) (sv sf : Bool) (st : CachedState)
    (hnd : tx.isDeployAccount = false)
    (hs : v.tx_executor.block_state = some st) :
    (StatefulValidator.perform_validations env v tx sv sf).trace.head?
      = some (.preValidationRun (!sf)) ∧
    (∀ fc, Event.preValidationRun fc ∈
      (StatefulValidator.perform_validations env v tx sv sf).trace → fc = !sf) := by
  rw [perform_validations_eq_rest env v tx sv sf hnd]
  rcases rest_cases env v tx sv sf st hs with
    ⟨e, hp, hR⟩ | ⟨hp, hsv, e, he, hR⟩ | ⟨hp, hsv, he, hR⟩ |
    ⟨hp, hsv, e, hv, hR⟩ | ⟨hp, hsv, ci, res, stor, e, hv, hc, hR⟩ |
    ⟨hp, hsv, ci, res, stor, ch, e, hv, hc, hr, hR⟩ |
    ⟨hp, hsv, ci, res, stor, ch, rec, e, hv, hc, hr, hpv, hR⟩ |
    ⟨hp, hsv, ci, res, stor, ch, rec, e, hv, hc, hr, hpv, he, hR⟩ |
    ⟨hp, hsv, ci, res, stor, ch, rec, hv, hc, hr, hpv, he, hR⟩ <;>
    rw [hR] <;>
    exact ⟨rfl, fun fc hfc => by simpa using hfc⟩

/-- Witness for C4: with `skip_fee_check = true` the pipeline still opens
with the pre-validation stage, run with the fee-check flag disabled. -/
theorem claim_C4_fee_flag_independent_witness :
    (StatefulValidator.perform_validations envOk vFix (.Invoke ⟨7, 0, 0⟩)
        false true).trace.head? = some (.preValidationRun false) :=
  (claim_C4_fee_flag_independent envOk vFix (.Invoke ⟨7, 0, 0⟩) false true
    stZero rfl rfl).1

/-- C5: with `skip_validate` set, neither the account's validate call nor the
post-validation report is ever invoked, whatever the collaborators would have
done; the nonce commit still happens when pre-validation succeeds and the
sender's slot is resolvable. -/
theorem claim_C5_skip_validate (env : Env) (v : StatefulValidator)
    (tx : AccountTransaction) (sf : Bool) (st : CachedState)
    (hnd : tx.isDeployAccount = false)
    (hs : v.tx_executor.block_state = some st) :
    (∀ g l, Event.validateTxRun g l ∉
      (StatefulValidator.perform_validations env v tx true sf).trace) ∧
    Event.postValidationRun ∉
      (StatefulValidator.perform_validations env v tx true sf).trace ∧
    (env.pre_validation_stage tx (v.tx_executor.block_context.to_tx_context tx)
        (!sf) false st = .ok () →
      st.nonce_err tx.common.sender_address = none →
      (StatefulValidator.perform_validations env v tx true sf).out = .ok () ∧
      Event.nonceIncremented tx.common.sender_address ∈
        (StatefulValidator.perform_validations env v tx true sf).trace) := by
  rw [perform_validations_eq_rest env v tx true sf hnd]
  rcases rest_cases env v tx true sf st hs with
    ⟨e, hp, hR⟩ | ⟨hp, hsv, e, he, hR⟩ | ⟨hp, hsv, he, hR⟩ |
    ⟨hp, hsv, hrest⟩ | ⟨hp, hsv, hrest⟩ | ⟨hp, hsv, hrest⟩ |
    ⟨hp, hsv, hrest⟩ | ⟨hp, hsv, hrest⟩ | ⟨hp, hsv, hrest⟩
  · rw [hR]
    refine ⟨fun g l => by simp, by simp, fun hp' hne => ?_⟩
    exact Except.noConfusion (hp.symm.trans hp')
  · rw [hR]
    refine ⟨fun g l => by simp, by simp, fun hp' hne => ?_⟩
    exact Option.noConfusion (he.symm.trans hne)
  · rw [hR]
    exact ⟨fun g l => by simp, by simp, fun _ _ => ⟨rfl, by simp⟩⟩
  all_goals exact absurd hsv (by decide)

/-- Witness for C5: with `skip_validate = true` and an environment whose
validate call would fail, the transaction is still admitted and the
post-validation report never runs. -/
theorem claim_C5_skip_validate_witness :
    Event.postValidationRun ∉
      (StatefulValidator.perform_validations envValFail vFix (.Invoke ⟨7, 0, 0⟩)
        true false).trace ∧
    (StatefulValidator.perform_validations envValFail vFix (.Invoke ⟨7, 0, 0⟩)
        true false).out = .ok () :=
  ⟨(claim_C5_skip_validate envValFail vFix (.Invoke ⟨7, 0, 0⟩) false stZero
      rfl rfl).2.1,
    ((claim_C5_skip_validate envValFail vFix (.Invoke ⟨7, 0, 0⟩) false stZero
      rfl rfl).2.2 rfl rfl).1⟩

/-- C7: whatever value the nonce-skip heuristic would compute, the validation
stage runs exactly when the caller-supplied `skip_validate` flag is false and
pre-validation succeeded; the heuristic's result is never consulted. -/
theorem claim_C7_heuristic_not_consulted (env : Env) (v : StatefulValidator)
    (tx : AccountTransaction) (sv sf : Bool) (st : CachedState) (b : Bool)
    (deploy_account_tx_hash : Option TransactionHash)
    (hnd : tx.isDeployAccount = false)
    (hs : v.tx_executor.block_state = some st)
    (hb : (v.skip_validate_due_to_unprocessed_deploy_account
        { sender_address := tx.common.sender_address, nonce := tx.common.nonce }
        deploy_account_tx_hash).out = .ok b) :
    ((∃ g l, Event.validateTxRun g l ∈
        (StatefulValidator.perform_validations env v tx sv sf).trace) ↔
      (sv = false ∧
        env.pre_validation_stage tx (v.tx_executor.block_context.to_tx_context tx)
          (!sf) false st = .ok ())) := by
  rw [perform_validations_eq_rest env v tx sv sf hnd]
  rcases rest_cases env v tx sv sf st hs with
    ⟨e, hp, hR⟩ | ⟨hp, hsv, e, he, hR⟩ | ⟨hp, hsv, he, hR⟩ |
    ⟨hp, hsv, e, hv, hR⟩ | ⟨hp, hsv, ci, res, stor, e, hv, hc, hR⟩ |
    ⟨hp, hsv, ci, res, stor, ch, e, hv, hc, hr, hR⟩ |
    ⟨hp, hsv, ci, res, stor, ch, rec, e, hv, hc, hr, hpv, hR⟩ |
    ⟨hp, hsv, ci, res, stor, ch, rec, e, hv, hc, hr, hpv, he, hR⟩ |
    ⟨hp, hsv, ci, res, stor, ch, rec, hv, hc, hr, hpv, he, hR⟩ <;>
    rw [hR]
  · constructor
    · rintro ⟨g, l, hm⟩
      simp at hm
    · rintro ⟨-, hp'⟩
      exact Except.noConfusion (hp.symm.trans hp')
  · constructor
    · rintro ⟨g, l, hm⟩
      simp at hm
    · rintro ⟨hsv', -⟩
      exact Bool.noConfusion (hsv.symm.trans hsv')
  · constructor
    · rintro ⟨g, l, hm⟩
      simp at hm
    · rintro ⟨hsv', -⟩
      exact Bool.noConfusion (hsv.symm.trans hsv')
  all_goals exact
    ⟨fun _ => ⟨hsv, hp⟩,
      fun _ => ⟨v.tx_executor.block_context.versioned_constants.tx_initial_gas,
        true, by simp⟩⟩

/-- Witness for C7: with the heuristic computing false (no deploy hash), the
validation stage still runs because the caller passed `skip_validate =
false`. -/
theorem claim_C7_heuristic_not_consulted_witness :
    ∃ g l, Event.validateTxRun g l ∈
      (StatefulValidator.perform_validations envOk vFix (.Invoke ⟨7, 0, 0⟩)
        false false).trace :=
  (claim_C7_heuristic_not_consulted envOk vFix (.Invoke ⟨7, 0, 0⟩) false false
    stZero false none rfl rfl rfl).mpr ⟨rfl, rfl⟩

/-- C8 counterexample: a failing post-validation report is surfaced under the
`TransactionExecutionError` wrapper of the four-variant error enum, not under
a distinct fifth post-validation kind. -/
theorem claim_C8_counterexample :
    (StatefulValidator.perform_validations envPostFail vFix (.Invoke ⟨7, 0, 0⟩)
        false false).out = .err (.TransactionExecutionError ⟨42⟩) := rfl

/-- C8 (amended): the error taxonomy has exactly four kinds, each a
transparent wrapping of the failing collaborator's error; a post-validation
failure is returned verbatim through the transaction-execution kind. -/
theorem claim_C8_error_taxonomy (env : Env) (v : StatefulValidator)
    (tx : AccountTransaction) (sf : Bool) (st : CachedState)
    (ci : Option CallInfo) (res : ExecutionResources) (stor : Nat → Nat)
    (ch : StateChanges) (rec : TransactionReceipt) (e : TransactionExecutionError)
    (hnd : tx.isDeployAccount = false)
    (hs : v.tx_executor.block_state = some st)
    (hp : env.pre_validation_stage tx (v.tx_executor.block_context.to_tx_context tx)
      (!sf) false st = .ok ())
    (hv : env.validate_tx tx (v.tx_executor.block_context.to_tx_context tx)
      v.tx_executor.block_context.versioned_constants.tx_initial_gas true st
      = .ok (ci, res, stor))
    (hc : env.get_actual_state_changes { st with storage := stor } = .ok ch)
    (hr : env.receipt_from_account_tx tx (v.tx_executor.block_context.to_tx_context tx)
      ch res ci 0 = .ok rec)
    (hpv : env.post_validation_verify (v.tx_executor.block_context.to_tx_context tx)
      rec = .error e) :
    (StatefulValidator.perform_validations env v tx false sf).out
      = .err (.TransactionExecutionError e) ∧
    (∀ e' : StatefulValidatorError,
      (∃ x, e' = .StateError x) ∨ (∃ x, e' = .TransactionExecutionError x) ∨
      (∃ x, e' = .TransactionExecutorError x) ∨
      (∃ x, e' = .TransactionPreValidationError x)) := by
  constructor
  · rw [perform_validations_eq_rest env v tx false sf hnd,
      rest_pre_ok_run env v tx sf st hs hp,
      validate_ok env v tx _ st ci res stor ch rec hs hv hc hr]
    simp [hpv]
  · intro e'
    cases e' with
    | StateError x => exact Or.inl ⟨x, rfl⟩
    | TransactionExecutionError x => exact Or.inr (Or.inl ⟨x, rfl⟩)
    | TransactionExecutorError x => exact Or.inr (Or.inr (Or.inl ⟨x, rfl⟩))
    | TransactionPreValidationError x => exact Or.inr (Or.inr (Or.inr ⟨x, rfl⟩))

/-- Witness for the amended C8: the concrete failing report with payload 42
comes back as the transaction-execution wrapping of that same payload. -/
theorem claim_C8_error_taxonomy_witness :
    (StatefulValidator.perform_validations envPostFail vFix (.Invoke ⟨7, 0, 0⟩)
        false false).out = .err (.TransactionExecutionError ⟨42⟩) ∧
    (∃ x, StatefulValidatorError.TransactionExecutionError ⟨42⟩
      = .TransactionExecutionError x) :=
  ⟨(claim_C8_error_taxonomy envPostFail vFix (.Invoke ⟨7, 0, 0⟩) false stZero
      none 0 stZero.storage 0 0 ⟨42⟩ rfl rfl rfl rfl rfl rfl rfl).1,
    ⟨⟨42⟩, rfl⟩⟩

/-- C9: the validation stage runs the account's validate call with
`limit_steps_by_resources = true`, assembles the receipt from the context,
the state diff, the resources and the optional call info with extra
data-availability cost 0, and returns the call info with that receipt; in the
pipeline the stage's gas budget is the versioned constants' initial gas. -/
theorem claim_C9_validation_stage (env : Env) (v : StatefulValidator)
    (tx : AccountTransaction) (g : Nat) (st : CachedState)
    (ci : Option CallInfo) (res : ExecutionResources) (stor : Nat → Nat)
    (ch : StateChanges) (rec : TransactionReceipt) (sf : Bool)
    (hs : v.tx_executor.block_state = some st)
    (hv : env.validate_tx tx (v.tx_executor.block_context.to_tx_context tx)
      g true st = .ok (ci, res, stor))
    (hc : env.get_actual_state_changes { st with storage := stor } = .ok ch)
    (hr : env.receipt_from_account_tx tx (v.tx_executor.block_context.to_tx_context tx)
      ch res ci 0 = .ok rec) :
    (StatefulValidator.validate env v tx g).out = .ok (ci, rec) ∧
    (StatefulValidator.validate env v tx g).trace
      = [.validateTxRun g true, .receiptBuilt 0] ∧
    (∀ g' l, Event.validateTxRun g' l ∈
        (StatefulValidator.perform_validations env v tx false sf).trace →
      g' = v.tx_executor.block_context.versioned_constants.tx_initial_gas ∧
        l = true) ∧
    (∀ c, Event.receiptBuilt c ∈
        (StatefulValidator.perform_validations env v tx false sf).trace →
      c = 0) := by
  have hval := validate_ok env v tx g st ci res stor ch rec hs hv hc hr
  refine ⟨by rw [hval], by rw [hval], ?_, ?_⟩
  · cases tx with
    | DeployAccount t =>
        intro g' l hm
        have h2 : (StatefulValidator.perform_validations env v
            (.DeployAccount t) false sf).trace = [Event.executeRun] :=
          execute_trace env v (.DeployAccount t)
        rw [h2] at hm
        simp at hm
    | Declare t =>
        rw [perform_validations_eq_rest env v (.Declare t) false sf rfl]
        rcases rest_cases env v (.Declare t) false sf st hs with
          ⟨e, hp, hR⟩ | ⟨hp, hsv, e, he, hR⟩ | ⟨hp, hsv, he, hR⟩ |
          ⟨hp, hsv, e, hv', hR⟩ | ⟨hp, hsv, ci', res', stor', e, hv', hc', hR⟩ |
          ⟨hp, hsv, ci', res', stor', ch', e, hv', hc', hr', hR⟩ |
          ⟨hp, hsv, ci', res', stor', ch', rec', e, hv', hc', hr', hpv', hR⟩ |
          ⟨hp, hsv, ci', res', stor', ch', rec', e, hv', hc', hr', hpv', he, hR⟩ |
          ⟨hp, hsv, ci', res', stor', ch', rec', hv', hc', hr', hpv', he, hR⟩ <;>
          rw [hR] <;>
          intro g' l hm <;>
          simp at hm <;>
          try exact hm
    | Invoke t =>
        rw [perform_validations_eq_rest env v (.Invoke t) false sf rfl]
        rcases rest_cases env v (.Invoke t) false sf st hs with
          ⟨e, hp, hR⟩ | ⟨hp, hsv, e, he, hR⟩ | ⟨hp, hsv, he, hR⟩ |
          ⟨hp, hsv, e, hv', hR⟩ | ⟨hp, hsv, ci', res', stor', e, hv', hc', hR⟩ |
          ⟨hp, hsv, ci', res', stor', ch', e, hv', hc', hr', hR⟩ |
          ⟨hp, hsv, ci', res', stor', ch', rec', e, hv', hc', hr', hpv', hR⟩ |
          ⟨hp, hsv, ci', res', stor', ch', rec', e, hv', hc', hr', hpv', he, hR⟩ |
          ⟨hp, hsv, ci', res', stor', ch', rec', hv', hc', hr', hpv', he, hR⟩ <;>
          rw [hR] <;>
          intro g' l hm <;>
          simp at hm <;>
          try exact hm
  · cases tx with
    | DeployAccount t =>
        intro c hm
        have h2 : (StatefulValidator.perform_validations env v
            (.DeployAccount t) false sf).trace = [Event.executeRun] :=
          execute_trace env v (.DeployAccount t)
        rw [h2] at hm
        simp at hm
    | Declare t =>
        rw [perform_validations_eq_rest env v (.Declare t) false sf rfl]
        rcases rest_cases env v (.Declare t) false sf st hs with
          ⟨e, hp, hR⟩ | ⟨hp, hsv, e, he, hR⟩ | ⟨hp, hsv, he, hR⟩ |
          ⟨hp, hsv, e, hv', hR⟩ | ⟨hp, hsv, ci', res', stor', e, hv', hc', hR⟩ |
          ⟨hp, hsv, ci', res', stor', ch', e, hv', hc', hr', hR⟩ |
          ⟨hp, hsv, ci', res', stor', ch', rec', e, hv', hc', hr', hpv', hR⟩ |
          ⟨hp, hsv, ci', res', stor', ch', rec', e, hv', hc', hr', hpv', he, hR⟩ |
          ⟨hp, hsv, ci', res', stor', ch', rec', hv', hc', hr', hpv', he, hR⟩ <;>
          rw [hR] <;>
          intro c hm <;>
          simp at hm <;>
          try exact hm
    | Invoke t =>
        rw [perform_validations_eq_rest env v (.Invoke t) false sf rfl]
        rcases rest_cases env v (.Invoke t) false sf st hs with
          ⟨e, hp, hR⟩ | ⟨hp, hsv, e, he, hR⟩ | ⟨hp, hsv, he, hR⟩ |
          ⟨hp, hsv, e, hv', hR⟩ | ⟨hp, hsv, ci', res', stor', e, hv', hc', hR⟩ |
          ⟨hp, hsv, ci', res', stor', ch', e, hv', hc', hr', hR⟩ |
          ⟨hp, hsv, ci', res', stor', ch', rec', e, hv', hc', hr', hpv', hR⟩ |
          ⟨hp, hsv, ci', res', stor', ch', rec', e, hv', hc', hr', hpv', he, hR⟩ |
          ⟨hp, hsv, ci', res', stor', ch', rec', hv', hc', hr', hpv', he, hR⟩ <;>
          rw [hR] <;>
          intro c hm <;>
          simp at hm <;>
          try exact hm

/-- Witness for C9: with every collaborator succeeding, the validation stage
returns the absent call trace and the receipt built by the receipt oracle. -/
theorem claim_C9_validation_stage_witness :
    (StatefulValidator.validate envOk vFix (.Invoke ⟨7, 0, 0⟩) 100).out
      = .ok (none, 0) :=
  (claim_C9_validation_stage envOk vFix (.Invoke ⟨7, 0, 0⟩) 100 stZero none 0
    stZero.storage 0 0 false rfl rfl rfl rfl).1

/-- C10: with an empty block-state slot every state-touching operation of the
validator reaches the `expect` branch and panics with the block-state-access
message; with an occupied slot none of them ever panics. -/
theorem claim_C10_block_state_guard (env : Env) (v : StatefulValidator)
    (tx : AccountTransaction) (ctx : TransactionContext) (a : ContractAddress)
    (g : Nat) (sv sf : Bool) :
    (v.tx_executor.block_state = none →
      (v.get_nonce a).out = .panicked BLOCK_STATE_ACCESS_ERR ∧
      (StatefulValidator.perform_pre_validation_stage env v tx ctx sf).out
        = .panicked BLOCK_STATE_ACCESS_ERR ∧
      (StatefulValidator.validate env v tx g).out
        = .panicked BLOCK_STATE_ACCESS_ERR ∧
      (tx.isDeployAccount = false →
        (StatefulValidator.perform_validations env v tx sv sf).out
          = .panicked BLOCK_STATE_ACCESS_ERR)) ∧
    (∀ st, v.tx_executor.block_state = some st →
      (∀ m, (v.get_nonce a).out ≠ .panicked m) ∧
      (∀ m, (StatefulValidator.perform_pre_validation_stage env v tx ctx sf).out
        ≠ .panicked m) ∧
      (∀ m, (StatefulValidator.validate env v tx g).out ≠ .panicked m) ∧
      (∀ m, (StatefulValidator.perform_validations env v tx sv sf).out
        ≠ .panicked m)) := by
  constructor
  · intro hn
    refine ⟨?_, ?_, ?_, ?_⟩
    · simp [StatefulValidator.get_nonce, hn]
    · simp [StatefulValidator.perform_pre_validation_stage, hn]
    · simp [StatefulValidator.validate, hn]
    · intro hnd
      cases tx with
      | DeployAccount t => simp [AccountTransaction.isDeployAccount] at hnd
      | Declare t =>
          rw [perform_validations_eq_rest env v (.Declare t) sv sf rfl]
          simp [StatefulValidator.perform_validations_rest,
            StatefulValidator.perform_pre_validation_stage, hn]
      | Invoke t =>
          rw [perform_validations_eq_rest env v (.Invoke t) sv sf rfl]
          simp [StatefulValidator.perform_validations_rest,
            StatefulValidator.perform_pre_validation_stage, hn]
  · intro st hst
    refine ⟨?_, ?_, ?_, ?_⟩
    · intro m
      simp only [StatefulValidator.get_nonce]
      rw [hst]
      rcases hna : st.get_nonce_at a with e | n <;> simp [hna]
    · intro m
      simp only [StatefulValidator.perform_pre_validation_stage]
      rw [hst]
      rcases hpp : env.pre_validation_stage tx ctx sf false st with e | u <;>
        simp [hpp]
    · intro m
      rcases hv : env.validate_tx tx (v.tx_executor.block_context.to_tx_context tx)
          g true st with e | ⟨ci, res, stor⟩
      · rw [validate_tx_error env v tx g st e hst hv]
        simp
      · rcases hc : env.get_actual_state_changes { st with storage := stor }
          with e | ch
        · rw [validate_changes_error env v tx g st ci res stor e hst hv hc]
          simp
        · rcases hr : env.receipt_from_account_tx tx
              (v.tx_executor.block_context.to_tx_context tx) ch res ci 0
            with e | rec
          · rw [validate_receipt_error env v tx g st ci res stor ch e hst hv hc hr]
            simp
          · rw [validate_ok env v tx g st ci res stor ch rec hst hv hc hr]
            simp
    · intro m
      cases tx with
      | DeployAccount t =>
          show (StatefulValidator.execute env v (.DeployAccount t)).out ≠ _
          rcases hx : env.executor_execute (.DeployAccount t)
              v.tx_executor.block_state with e | slot <;>
            simp [StatefulValidator.execute, hx]
      | Declare t =>
          rw [perform_validations_eq_rest env v (.Declare t) sv sf rfl]
          rcases rest_cases env v (.Declare t) sv sf st hst with
            ⟨e, hp, hR⟩ | ⟨hp, hsv, e, he, hR⟩ | ⟨hp, hsv, he, hR⟩ |
            ⟨hp, hsv, e, hv', hR⟩ | ⟨hp, hsv, ci', res', stor', e, hv', hc', hR⟩ |
            ⟨hp, hsv, ci', res', stor', ch', e, hv', hc', hr', hR⟩ |
            ⟨hp, hsv, ci', res', stor', ch', rec', e, hv', hc', hr', hpv', hR⟩ |
            ⟨hp, hsv, ci', res', stor', ch', rec', e, hv', hc', hr', hpv', he, hR⟩ |
            ⟨hp, hsv, ci', res', stor', ch', rec', hv', hc', hr', hpv', he, hR⟩ <;>
            rw [hR] <;> simp
      | Invoke t =>
          rw [perform_validations_eq_rest env v (.Invoke t) sv sf rfl]
          rcases rest_cases env v (.Invoke t) sv sf st hst with
            ⟨e, hp, hR⟩ | ⟨hp, hsv, e, he, hR⟩ | ⟨hp, hsv, he, hR⟩ |
            ⟨hp, hsv, e, hv', hR⟩ | ⟨hp, hsv, ci', res', stor', e, hv', hc', hR⟩ |
            ⟨hp, hsv, ci', res', stor', ch', e, hv', hc', hr', hR⟩ |
            ⟨hp, hsv, ci', res', stor', ch', rec', e, hv', hc', hr', hpv', hR⟩ |
            ⟨hp, hsv, ci', res', stor', ch', rec', e, hv', hc', hr', hpv', he, hR⟩ |
            ⟨hp, hsv, ci', res', stor', ch', rec', hv', hc', hr', hpv', he, hR⟩ <;>
            rw [hR] <;> simp

/-- Witness for C10: with an empty slot `get_nonce` panics with the
block-state-access message; with the slot occupied it never panics. -/
theorem claim_C10_block_state_guard_witness :
    (vNone.get_nonce 7).out = .panicked BLOCK_STATE_ACCESS_ERR ∧
    (∀ m, (vFix.get_nonce 7).out ≠ .panicked m) :=
  ⟨((claim_C10_block_state_guard envOk vNone (.Invoke ⟨7, 0, 0⟩)
      (bcFix.to_tx_context (.Invoke ⟨7, 0, 0⟩)) 7 100 false false).1 rfl).1,
    ((claim_C10_block_state_guard envOk vFix (.Invoke ⟨7, 0, 0⟩)
      (bcFix.to_tx_context (.Invoke ⟨7, 0, 0⟩)) 7 100 false false).2
        stZero rfl).1⟩

/-- C6: the nonce-skip heuristic returns true exactly when a deploy-account
hash was supplied, the sender's current nonce read from state is zero, and
the incoming nonce lies in `[1, max_nonce_for_validation_skip]`. -/
theorem claim_C6_skip_heuristic_iff (v : StatefulValidator)
    (tx_info : TransactionInfo) (deploy_account_tx_hash : Option TransactionHash)
    (st : CachedState) (n : Nonce)
    (hs : v.tx_executor.block_state = some st)
    (hn : st.get_nonce_at tx_info.sender_address = .ok n) :
    (v.skip_validate_due_to_unprocessed_deploy_account tx_info
        deploy_account_tx_hash).out = .ok true ↔
      (deploy_account_tx_hash.isSome = true ∧ n = 0 ∧ 1 ≤ tx_info.nonce ∧
        tx_info.nonce ≤ v.max_nonce_for_validation_skip) := by
  unfold StatefulValidator.skip_validate_due_to_unprocessed_deploy_account
  rw [hs]
  simp [hn, Bool.and_eq_true, and_assoc]

/-- Witness for C6: with `max_nonce_for_validation_skip = 3`, a deploy hash
present and current nonce 0, an incoming nonce of 1 qualifies for the skip. -/
theorem claim_C6_skip_heuristic_iff_witness :
    (vFix.skip_validate_due_to_unprocessed_deploy_account
        { sender_address := 7, nonce := 1 } (some 99)).out = .ok true :=
  (claim_C6_skip_heuristic_iff vFix { sender_address := 7, nonce := 1 }
      (some 99) stZero 0 rfl rfl).mpr ⟨rfl, rfl, by decide, by decide⟩


end Blockifier
